import Mathlib

/-!
Verification of the response-normalization, retry and orchestration logic of
the financial news classifier (`src/classifier.py`), as a shallow embedding:
Python strings are `String`, Python floats are `ℚ` (all constants involved are
decimal literals), Python exceptions are an explicit `Except` layer, and the
`try/except` wrappers of the source become total functions pattern-matching on
that layer.
-/

namespace NewsClassifier

/-! Python string helpers. -/

/-- Python whitespace characters (ASCII fragment of `str.strip`). -/
def isPyWs (c : Char) : Bool :=
  c = ' ' || c = '\t' || c = '\n' || c = '\r' || c = '\x0b' || c = '\x0c'

/-- Python `str.strip()`: remove leading and trailing whitespace. -/
def pyStrip (s : String) : String :=
  ⟨((s.toList.dropWhile isPyWs).reverse.dropWhile isPyWs).reverse⟩

/-- Sublist-of-contiguous-chars test, `needle in hay` on Python strings. -/
def listIsSubstring (needle hay : List Char) : Bool :=
  (List.range (hay.length + 1)).any (fun i => needle.isPrefixOf (hay.drop i))

/-- Python `key in response` substring containment. -/
def strContainsSubstr (hay needle : String) : Bool :=
  listIsSubstring needle.toList hay.toList

/-! Python exception model. -/

/-- Exceptions that the modelled code can raise. -/
inductive PyErr where
  | valueError (msg : String)
  | typeError (msg : String)
  | attributeError (msg : String)
deriving DecidableEq, Repr

/-- Python `str(e)`: the description string carried by the exception. -/
def pyErrStr : PyErr → String
  | .valueError m => m
  | .typeError m => m
  | .attributeError m => m

instance {ε α : Type} [DecidableEq ε] [DecidableEq α] : DecidableEq (Except ε α) := fun x y =>
  match x, y with
  | .ok a, .ok b => if h : a = b then .isTrue (by rw [h]) else .isFalse (by simp [h])
  | .error a, .error b => if h : a = b then .isTrue (by rw [h]) else .isFalse (by simp [h])
  | .ok _, .error _ => .isFalse (by simp)
  | .error _, .ok _ => .isFalse (by simp)

/-- Python `str.lower()` (ASCII case mapping), kept structural on the
character list. -/
def pyLower (s : String) : String :=
  ⟨s.toList.map Char.toLower⟩

/-! JSON value model: the values `json.loads` can produce inside a flat
(non-nested) object. Arrays and nested objects cannot occur in the extracted
candidate because the extraction regex admits no inner braces. -/

/-- A JSON scalar as produced by `json.loads`: Python distinguishes `int` from
`float` results. -/
inductive JsonValue where
  | int (z : ℤ)
  | num (q : ℚ)
  | str (s : String)
  | bool (b : Bool)
  | null
deriving DecidableEq, Repr

/-- A parsed JSON object, association list in source order. -/
abbrev JsonObject := List (String × JsonValue)

/-- Python `dict.get(k)`: later duplicate keys win, as in `json.loads`. -/
def dictGet (o : JsonObject) (k : String) : Option JsonValue :=
  o.reverse.lookup k

/-- Python truthiness of a JSON scalar (`if category_num:`). -/
def pyTruthy : JsonValue → Bool
  | .int z => decide (z ≠ 0)
  | .num q => decide (q ≠ 0)
  | .str s => decide (s ≠ "")
  | .bool b => b
  | .null => false

/-- Python `v == n` for an integer literal `n`: numeric cross-type equality,
`True == 1`, strings never equal ints. -/
def pyEqInt : JsonValue → ℤ → Bool
  | .int z, n => decide (z = n)
  | .num q, n => decide (q = (n : ℚ))
  | .bool b, n => decide ((if b then (1 : ℤ) else 0) = n)
  | .str _, _ => false
  | .null, _ => false

/-- Numeric view used by Python order comparison `1 <= v`: ints, floats and
bools compare as numbers; strings and `None` raise `TypeError`. -/
def toNumQ : JsonValue → Except PyErr ℚ
  | .int z => .ok (z : ℚ)
  | .num q => .ok q
  | .bool b => .ok (if b then 1 else 0)
  | .str _ => .error (.typeError "comparison not supported between str and int")
  | .null => .error (.typeError "comparison not supported between NoneType and int")

/-- Python chained comparison `1 <= v <= hi` on a JSON scalar. -/
def pyChainedCmp (v : JsonValue) (hi : ℚ) : Except PyErr Bool :=
  match toNumQ v with
  | .error e => .error e
  | .ok q => .ok (decide (1 ≤ q) && decide (q ≤ hi))

/-- Python list indexing demand: `categories[v-1]` needs an int (or bool). -/
def pyIndex : JsonValue → Except PyErr ℤ
  | .int z => .ok z
  | .bool b => .ok (if b then 1 else 0)
  | .num _ => .error (.typeError "list indices must be integers not float")
  | .str _ => .error (.typeError "list indices must be integers not str")
  | .null => .error (.typeError "list indices must be integers not NoneType")

/-- Python `float()` literal parsing of a stripped string: optional sign,
decimal digits around an optional point, optional exponent. -/
def parseFloatChars (cs : List Char) : Option ℚ :=
  let (sgn, cs1) : ℤ × List Char :=
    match cs with
    | '-' :: r => (-1, r)
    | '+' :: r => (1, r)
    | _ => (1, cs)
  let (ids, cs2) := cs1.span Char.isDigit
  let (fds, cs3) : List Char × List Char :=
    match cs2 with
    | '.' :: r => r.span Char.isDigit
    | _ => ([], cs2)
  if ids = [] ∧ fds = [] then none
  else
    let mantNum : ℤ :=
      sgn * ((ids.foldl (fun a c => 10 * a + (c.toNat - 48)) 0 : ℕ) * 10 ^ fds.length +
        (fds.foldl (fun a c => 10 * a + (c.toNat - 48)) 0 : ℕ))
    let mantDen : ℕ := 10 ^ fds.length
    match cs3 with
    | [] => some (mkRat mantNum mantDen)
    | e :: r =>
      if e = 'e' ∨ e = 'E' then
        let (esgn, r1) : Bool × List Char :=
          match r with
          | '-' :: r2 => (true, r2)
          | '+' :: r2 => (false, r2)
          | _ => (false, r)
        let (eds, r2) := r1.span Char.isDigit
        if eds = [] ∨ r2 ≠ [] then none
        else
          let ev : ℕ := eds.foldl (fun a c => 10 * a + (c.toNat - 48)) 0
          some (if esgn then mkRat mantNum (mantDen * 10 ^ ev)
            else mkRat (mantNum * 10 ^ ev) mantDen)
      else none

/-- Python `float(v)` on a JSON scalar: numbers pass through, bools become
0/1, numeric strings parse, anything else raises. -/
def pyFloat : JsonValue → Except PyErr ℚ
  | .int z => .ok (z : ℚ)
  | .num q => .ok q
  | .bool b => .ok (if b then 1 else 0)
  | .str s =>
    match parseFloatChars (pyStrip s).toList with
    | some q => .ok q
    | none => .error (.valueError ("could not convert string to float: " ++ s))
  | .null => .error (.typeError "float argument must be a string or a real number, not NoneType")

/-! JSON parsing (`json.loads`) restricted to the flat objects the extraction
regex can produce. -/

/-- JSON structural whitespace. -/
def isJsonWs (c : Char) : Bool :=
  c = ' ' || c = '\t' || c = '\n' || c = '\r'

/-- Skip JSON whitespace. -/
def skipWs (cs : List Char) : List Char :=
  cs.dropWhile isJsonWs

/-- JSON string escape characters. -/
def escChar : Char → Option Char
  | '"' => some '"'
  | '\\' => some '\\'
  | '/' => some '/'
  | 'b' => some '\x08'
  | 'f' => some '\x0c'
  | 'n' => some '\n'
  | 'r' => some '\r'
  | 't' => some '\t'
  | _ => none

/-- Parse the body of a JSON string after the opening quote; returns the
content and the remainder after the closing quote. Raw control characters
are rejected, as in strict-mode `json.loads`. -/
def parseJStringAux : List Char → Option (List Char × List Char)
  | [] => none
  | '"' :: rest => some ([], rest)
  | '\\' :: c :: rest =>
    match escChar c with
    | some ec => (fun p => (ec :: p.1, p.2)) <$> parseJStringAux rest
    | none => none
  | c :: rest =>
    if c.toNat < 32 then none
    else (fun p => (c :: p.1, p.2)) <$> parseJStringAux rest

/-- Parse a JSON string literal including the opening quote. -/
def parseJString (cs : List Char) : Option (String × List Char) :=
  match cs with
  | '"' :: rest => (fun p => (⟨p.1⟩, p.2)) <$> parseJStringAux rest
  | _ => none

/-- Digit-run value. -/
def digitsVal (ds : List Char) : ℕ :=
  ds.foldl (fun a c => 10 * a + (c.toNat - 48)) 0

/-- Parse a JSON number literal: optional minus, integer part without leading
zeros, optional fraction, optional exponent. Yields `JsonValue.int` exactly
when neither fraction nor exponent is present, as `json.loads` does. -/
def parseJNumber (cs : List Char) : Option (JsonValue × List Char) :=
  let (neg, cs1) : Bool × List Char :=
    match cs with
    | '-' :: r => (true, r)
    | _ => (false, cs)
  let (ids, cs2) := cs1.span Char.isDigit
  if ids = [] then none
  else if 1 < ids.length ∧ ids.head? = some '0' then none
  else
    let (fds, cs3, hasFrac) : List Char × List Char × Bool :=
      match cs2 with
      | '.' :: r =>
        let (f, r2) := r.span Char.isDigit
        (f, r2, true)
      | _ => ([], cs2, false)
    if hasFrac ∧ fds = [] then none
    else
      let (eds, cs4, hasExp, negExp) : List Char × List Char × Bool × Bool :=
        match cs3 with
        | 'e' :: '-' :: r => let (d, r2) := r.span Char.isDigit; (d, r2, true, true)
        | 'e' :: '+' :: r => let (d, r2) := r.span Char.isDigit; (d, r2, true, false)
        | 'e' :: r => let (d, r2) := r.span Char.isDigit; (d, r2, true, false)
        | 'E' :: '-' :: r => let (d, r2) := r.span Char.isDigit; (d, r2, true, true)
        | 'E' :: '+' :: r => let (d, r2) := r.span Char.isDigit; (d, r2, true, false)
        | 'E' :: r => let (d, r2) := r.span Char.isDigit; (d, r2, true, false)
        | _ => ([], cs3, false, false)
      if hasExp ∧ eds = [] then none
      else if ¬ hasFrac ∧ ¬ hasExp then
        some (.int ((if neg then -1 else 1) * (digitsVal ids : ℤ)), cs2)
      else
        let mantNum : ℤ :=
          (if neg then -1 else 1) *
            ((digitsVal ids : ℤ) * 10 ^ fds.length + (digitsVal fds : ℤ))
        let mantDen : ℕ := 10 ^ fds.length
        let scaled : ℚ :=
          if negExp then mkRat mantNum (mantDen * 10 ^ digitsVal eds)
          else mkRat (mantNum * 10 ^ digitsVal eds) mantDen
        some (.num scaled, cs4)

/-- Parse a flat JSON scalar value: string, number, `true`, `false`, `null`.
Nested objects cannot occur in an extracted candidate; arrays are outside the
modelled fragment. -/
def parseJValue (cs : List Char) : Option (JsonValue × List Char) :=
  match cs with
  | '"' :: _ => (fun p => (JsonValue.str p.1, p.2)) <$> parseJString cs
  | 't' :: 'r' :: 'u' :: 'e' :: rest => some (.bool true, rest)
  | 'f' :: 'a' :: 'l' :: 's' :: 'e' :: rest => some (.bool false, rest)
  | 'n' :: 'u' :: 'l' :: 'l' :: rest => some (.null, rest)
  | _ => parseJNumber cs

/-- Parse the members of a flat JSON object up to and including the closing
brace; fuel bounds the recursion by the input length. -/
def parseMembers (fuel : ℕ) (cs : List Char) : Option (JsonObject × List Char) :=
  match fuel with
  | 0 => none
  | fuel + 1 =>
    match parseJString (skipWs cs) with
    | none => none
    | some (k, cs1) =>
      match skipWs cs1 with
      | ':' :: cs2 =>
        match parseJValue (skipWs cs2) with
        | none => none
        | some (v, cs3) =>
          match skipWs cs3 with
          | ',' :: cs4 =>
            match parseMembers fuel cs4 with
            | none => none
            | some (obj, rest) => some ((k, v) :: obj, rest)
          | '\x7d' :: cs4 => some ([(k, v)], cs4)
          | _ => none
      | _ => none

/-- Parse a complete flat JSON object, requiring all input consumed, as
`json.loads` does on the extracted candidate. -/
def parseJsonObject (cs : List Char) : Option JsonObject :=
  match skipWs cs with
  | '\x7b' :: rest =>
    match skipWs rest with
    | '\x7d' :: rest2 => if skipWs rest2 = [] then some [] else none
    | _ =>
      match parseMembers (cs.length + 1) rest with
      | none => none
      | some (obj, rest2) => if skipWs rest2 = [] then some obj else none
  | _ => none

/-! The extraction regex of `_parse_json_response`. The pattern matches a
brace pair with no brace between; `re.findall` returns the leftmost such
match: scanning left to right, an opening brace whose next brace is a
closing one. -/

/-- After an opening brace: collect characters up to the next brace; succeed
(returning content plus the closing brace) only if that brace closes. -/
def scanInner : List Char → Option (List Char)
  | [] => none
  | c :: rest =>
    if c = '\x7d' then some ['\x7d']
    else if c = '\x7b' then none
    else (fun l => c :: l) <$> scanInner rest

/-- First match of the pattern brace, non-braces, brace — the candidate
substring `_parse_json_response` feeds to `json.loads`. -/
def extractFlatBraces : List Char → Option (List Char)
  | [] => none
  | c :: rest =>
    if c = '\x7b' then
      match scanInner rest with
      | some body => some ('\x7b' :: body)
      | none => extractFlatBraces rest
    else extractFlatBraces rest

/-- Model of `_parse_json_response`: extract the first flat brace-delimited
substring and parse it; any failure yields the empty dict. -/
def parse_json_response (response : String) : JsonObject :=
  match extractFlatBraces response.toList with
  | none => []
  | some cand =>
    match parseJsonObject cand with
    | some obj => obj
    | none => []

/-! Label model (`models.py`). -/

/-- The nine news categories, declaration order as in `models.py`. -/
inductive NewsCategory where
  | oil_and_gas
  | agriculture
  | housing
  | banking
  | stock_market
  | cryptocurrency
  | forex
  | commodities
  | others
deriving DecidableEq, Repr

/-- Enum string value of a category. -/
def NewsCategory.value : NewsCategory → String
  | .oil_and_gas => "oil_and_gas"
  | .agriculture => "agriculture"
  | .housing => "housing"
  | .banking => "banking"
  | .stock_market => "stock_market"
  | .cryptocurrency => "cryptocurrency"
  | .forex => "forex"
  | .commodities => "commodities"
  | .others => "others"

/-- `list(NewsCategory)`: the categories in declaration order. -/
def newsCategoryList : List NewsCategory :=
  [.oil_and_gas, .agriculture, .housing, .banking, .stock_market,
   .cryptocurrency, .forex, .commodities, .others]

/-- The three sentiment labels, declaration order as in `models.py`. -/
inductive SentimentType where
  | positive
  | negative
  | neutral
deriving DecidableEq, Repr

/-- Enum string value of a sentiment. -/
def SentimentType.value : SentimentType → String
  | .positive => "positive"
  | .negative => "negative"
  | .neutral => "neutral"

/-- `categories[n-1].value` for a 1-based ordinal `n` (total version used to
state theorems; inside the valid range it is exact list indexing). -/
def categoryAt (n : ℤ) : String :=
  (newsCategoryList.getD (n - 1).toNat .others).value

/-! The normalizers (`_normalize_category`, `_normalize_sentiment`). -/

/-- The keyword table of `_normalize_category`, in insertion order. -/
def category_mapping : List (String × String × ℚ) :=
  [("stock", "stock_market", mkRat 4 5),
   ("equity", "stock_market", mkRat 4 5),
   ("oil", "oil_and_gas", mkRat 4 5),
   ("gas", "oil_and_gas", mkRat 4 5),
   ("bank", "banking", mkRat 4 5),
   ("crypto", "cryptocurrency", mkRat 4 5),
   ("forex", "forex", mkRat 4 5),
   ("commodity", "commodities", mkRat 4 5),
   ("agriculture", "agriculture", mkRat 4 5),
   ("housing", "housing", mkRat 4 5)]

/-- The keyword tier of `_normalize_category` applied to the lowercased,
stripped reply: first table key occurring as a substring wins; otherwise the
terminal fallback `(others, 0.5)`. -/
def categoryKeywordFallback (r : String) : String × ℚ :=
  match category_mapping.find? (fun kv => strContainsSubstr r kv.1) with
  | some (_, cat, conf) => (cat, conf)
  | none => (NewsCategory.others.value, mkRat 1 2)

/-- Positive keyword list of `_normalize_sentiment`. -/
def positiveWords : List String := ["positive", "growth", "profit", "success"]

/-- Negative keyword list of `_normalize_sentiment`. -/
def negativeWords : List String := ["negative", "decline", "loss", "fail"]

/-- The keyword tier of `_normalize_sentiment` applied to the lowercased,
stripped reply, with terminal fallback `(neutral, 0.6)`. -/
def sentimentKeywordFallback (r : String) : String × ℚ :=
  if positiveWords.any (fun w => strContainsSubstr r w) then
    (SentimentType.positive.value, mkRat 4 5)
  else if negativeWords.any (fun w => strContainsSubstr r w) then
    (SentimentType.negative.value, mkRat 4 5)
  else (SentimentType.neutral.value, mkRat 3 5)

/-- The `try`-block of `_normalize_category`, with the Python exceptions it
can raise made explicit: `float()` on the confidence field, the chained
comparison, and list indexing. -/
def normalize_category_try (response : String) : Except PyErr (String × ℚ) :=
  let result := parse_json_response response
  match pyFloat ((dictGet result "confidence").getD (.int 0)) with
  | .error e => .error e
  | .ok confidence =>
    match dictGet result "category_number" with
    | some v =>
      if pyTruthy v then
        match pyChainedCmp v 9 with
        | .error e => .error e
        | .ok true =>
          match pyIndex v with
          | .error e => .error e
          | .ok z => .ok (categoryAt z, confidence)
        | .ok false => .ok (categoryKeywordFallback (pyStrip (pyLower response)))
      else .ok (categoryKeywordFallback (pyStrip (pyLower response)))
    | none => .ok (categoryKeywordFallback (pyStrip (pyLower response)))

/-- `_normalize_category`: the `try`-block with its `except` wrapper
degrading any internal failure to `(others, 0.0)`. -/
def normalize_category (response : String) : String × ℚ :=
  match normalize_category_try response with
  | .ok r => r
  | .error _ => (NewsCategory.others.value, 0)

/-- The `try`-block of `_normalize_sentiment`: a truthy `sentiment_number`
maps 1 to positive, 2 to negative, and anything else to neutral, each with
the parsed confidence. -/
def normalize_sentiment_try (response : String) : Except PyErr (String × ℚ) :=
  let result := parse_json_response response
  match pyFloat ((dictGet result "confidence").getD (.int 0)) with
  | .error e => .error e
  | .ok confidence =>
    match dictGet result "sentiment_number" with
    | some v =>
      if pyTruthy v then
        if pyEqInt v 1 then .ok (SentimentType.positive.value, confidence)
        else if pyEqInt v 2 then .ok (SentimentType.negative.value, confidence)
        else .ok (SentimentType.neutral.value, confidence)
      else .ok (sentimentKeywordFallback (pyStrip (pyLower response)))
    | none => .ok (sentimentKeywordFallback (pyStrip (pyLower response)))

/-- `_normalize_sentiment`: the `try`-block with its `except` wrapper
degrading any internal failure to `(neutral, 0.0)`. -/
def normalize_sentiment (response : String) : String × ℚ :=
  match normalize_sentiment_try response with
  | .ok r => r
  | .error _ => (SentimentType.neutral.value, 0)

/-- The confidence the JSON tier parses from a reply (0 when the field is
absent or the whole parse degraded); used to state the confidence-range
result. -/
def jsonConfidence (response : String) : ℚ :=
  match pyFloat ((dictGet (parse_json_response response) "confidence").getD (.int 0)) with
  | .ok q => q
  | .error _ => 0

/-! Configuration constants (`config.py`). -/

/-- `config.MAX_RETRIES`. -/
def MAX_RETRIES : ℕ := 3

/-- `config.RETRY_DELAY` (seconds, exact). -/
def RETRY_DELAY : ℚ := 2

/-- `config.CONFIDENCE_THRESHOLD`. -/
def CONFIDENCE_THRESHOLD : ℚ := mkRat 7 10

/-! The retry loop of `_call_ollama`. The HTTP layer is abstracted as a
`service` giving the outcome of each attempt (`none` models any request
failure: network error, non-2xx status, timeout); the value paired with the
result records how many attempts were made and which backoff delays were
slept, so timing claims are statable. -/

/-- The `for attempt in range(MAX_RETRIES)` loop from iteration `attempt`
with `fuel` iterations left; returns (result, attempts made, delays slept). -/
def call_ollama_loop (service : ℕ → Option α) : ℕ → ℕ → Option α × ℕ × List ℚ
  | 0, _ => (none, 0, [])
  | fuel + 1, attempt =>
    match service attempt with
    | some r => (some r, 1, [])
    | none =>
      if attempt = MAX_RETRIES - 1 then (none, 1, [])
      else
        let (res, n, ds) := call_ollama_loop service fuel (attempt + 1)
        (res, n + 1, RETRY_DELAY * 2 ^ attempt :: ds)

/-- `_call_ollama`: run the retry loop over all `MAX_RETRIES` iterations. -/
def call_ollama (service : ℕ → Option α) : Option α × ℕ × List ℚ :=
  call_ollama_loop service MAX_RETRIES 0

/-! The orchestrator (`analyze_news`). -/

/-- The result record (`NewsAnalysis` in `models.py`); `processing_time` is
wall-clock and outside the embedding. -/
structure NewsAnalysis where
  category : String
  sentiment : String
  success : Bool
  raw_response : Option String
  confidence_score : ℚ
deriving DecidableEq, Repr

/-- Python format spec `.2f` on an exact rational: round half to even at two
decimals, computed on numerator and denominator so it evaluates by kernel
reduction. -/
def fmt2 (q : ℚ) : String :=
  let N : ℕ := q.num.natAbs * 100
  let d : ℕ := q.den
  let w : ℕ := N / d
  let r : ℕ := N % d
  let n : ℕ := if 2 * r < d then w else if d < 2 * r then w + 1
    else if w % 2 = 0 then w else w + 1
  (if q < 0 then "-" else "") ++ toString (n / 100) ++ "." ++
    (if n % 100 < 10 then "0" ++ toString (n % 100) else toString (n % 100))

/-- Python truthiness of a `_call_ollama` result (`None` and the empty dict
are falsy). -/
def dictTruthy : Option JsonObject → Bool
  | none => false
  | some d => decide (d ≠ [])

/-- Python `value.strip()` where `value` came from `.get('response', '')`:
raises `AttributeError` unless the value is a string. -/
def pyStripVal : JsonValue → Except PyErr String
  | .str s => .ok (pyStrip s)
  | .int _ => .error (.attributeError "int object has no attribute strip")
  | .num _ => .error (.attributeError "float object has no attribute strip")
  | .bool _ => .error (.attributeError "bool object has no attribute strip")
  | .null => .error (.attributeError "NoneType object has no attribute strip")

/-- The `try`-block of `analyze_news`, parameterized by the outcomes of the
two `_call_ollama` invocations (their retry behavior is `call_ollama`; the
orchestrator only consumes the final `Option` result). -/
def analyze_news_try (news_text : String) (category_response sentiment_response : Option JsonObject) :
    Except PyErr NewsAnalysis :=
  let t := pyStrip news_text
  if t = "" then
    .ok { category := NewsCategory.others.value, sentiment := SentimentType.neutral.value,
          success := false, raw_response := some "Empty text", confidence_score := 0 }
  else if dictTruthy category_response && dictTruthy sentiment_response then
    match pyStripVal ((dictGet (category_response.getD []) "response").getD (.str "")) with
    | .error e => .error e
    | .ok category_raw =>
      match pyStripVal ((dictGet (sentiment_response.getD []) "response").getD (.str "")) with
      | .error e => .error e
      | .ok sentiment_raw =>
        let (category, cat_confidence) := normalize_category category_raw
        let (sentiment, sent_confidence) := normalize_sentiment sentiment_raw
        let confidence_score := (cat_confidence + sent_confidence) / 2
        let raw_response :=
          "Category: " ++ category_raw ++ ", Confidence: " ++ fmt2 cat_confidence ++
            "\n" ++ "Sentiment: " ++ sentiment_raw ++ ", Confidence: " ++ fmt2 sent_confidence
        .ok { category := category, sentiment := sentiment,
              success := decide (confidence_score ≥ CONFIDENCE_THRESHOLD),
              raw_response := some raw_response, confidence_score := confidence_score }
  else
    .ok { category := NewsCategory.others.value, sentiment := SentimentType.neutral.value,
          success := false, raw_response := none, confidence_score := 0 }

/-- `analyze_news`: the `try`-block with its `except` wrapper converting any
internal failure into a failed result carrying `str(e)` as `raw_response`. -/
def analyze_news (news_text : String) (category_response sentiment_response : Option JsonObject) :
    NewsAnalysis :=
  match analyze_news_try news_text category_response sentiment_response with
  | .ok r => r
  | .error e =>
    { category := NewsCategory.others.value, sentiment := SentimentType.neutral.value,
      success := false, raw_response := some (pyErrStr e), confidence_score := 0 }

/-! Helper lemmas shared by the claim theorems. -/

/-- With no brace-delimited substring in the reply, `_parse_json_response`
yields the empty dict. -/
theorem parse_json_response_of_no_braces (s : String)
    (h : extractFlatBraces s.toList = none) : parse_json_response s = [] := by
  unfold parse_json_response
  rw [h]

/-- The keyword tier of the category normalizer only produces confidences in
the unit interval (0.8 from the table, 0.5 terminal). -/
theorem categoryKeywordFallback_conf_range (r : String) :
    0 ≤ (categoryKeywordFallback r).2 ∧ (categoryKeywordFallback r).2 ≤ 1 := by
  unfold categoryKeywordFallback
  cases h : category_mapping.find? (fun kv => strContainsSubstr r kv.1) with
  | none => norm_num
  | some kv =>
    obtain ⟨k, cat, conf⟩ := kv
    have hm := List.mem_of_find?_eq_some h
    fin_cases hm <;> norm_num

/-- The keyword tier of the sentiment normalizer only produces confidences in
the unit interval (0.8 matched, 0.6 terminal). -/
theorem sentimentKeywordFallback_conf_range (r : String) :
    0 ≤ (sentimentKeywordFallback r).2 ∧ (sentimentKeywordFallback r).2 ≤ 1 := by
  unfold sentimentKeywordFallback
  split <;> try split
  all_goals norm_num

/-! Claim theorems. -/

/-- Claim C1, counterexample: the reply `5. Discussing oil and gas markets`
is normalized by the keyword tier to `oil_and_gas` with confidence 0.8 — not
to the 5th category `stock_market` as the claim asserts; the code has no
bare-digit extraction tier. -/
theorem C1_counterexample :
    normalize_category "5. Discussing oil and gas markets" =
      (NewsCategory.oil_and_gas.value, mkRat 4 5) ∧
    NewsCategory.oil_and_gas.value ≠ NewsCategory.stock_market.value := by
  constructor
  · rfl
  · decide

/-- Claim C1 as amended: for a reply containing no brace-delimited JSON
object, digit runs are ignored entirely (there is no bare-digit tier) and the
result is that of the keyword tier on the lowercased, stripped reply; in
particular `5. Discussing oil and gas markets` yields `oil_and_gas` with
confidence 0.8, the keyword match beating the leading digit 5. -/
theorem C1_no_digit_tier (s : String)
    (h : extractFlatBraces s.toList = none) :
    normalize_category s = categoryKeywordFallback (pyStrip (pyLower s)) := by
  have hp := parse_json_response_of_no_braces s h
  simp only [normalize_category, normalize_category_try, hp]
  rfl

/-- Witness for C1: the amended theorem applied to the claim reply itself. -/
theorem C1_no_digit_tier_witness :
    normalize_category "5. Discussing oil and gas markets" =
      categoryKeywordFallback (pyStrip (pyLower "5. Discussing oil and gas markets")) :=
  C1_no_digit_tier "5. Discussing oil and gas markets" (by rfl)

/-- Claim C2: both normalizers are total — when the modelled `try`-block
succeeds its value is returned unchanged, and when it raises internally the
`except` wrapper degrades the result to `(others, 0.0)` for category and
`(neutral, 0.0)` for sentiment; no exception propagates. -/
theorem C2_never_raises (s : String) :
    (∀ r, normalize_category_try s = .ok r → normalize_category s = r) ∧
    (∀ e, normalize_category_try s = .error e →
      normalize_category s = (NewsCategory.others.value, 0)) ∧
    (∀ r, normalize_sentiment_try s = .ok r → normalize_sentiment s = r) ∧
    (∀ e, normalize_sentiment_try s = .error e →
      normalize_sentiment s = (SentimentType.neutral.value, 0)) := by
  refine ⟨fun r h => ?_, fun e h => ?_, fun r h => ?_, fun e h => ?_⟩ <;>
    simp [normalize_category, normalize_sentiment, h]

/-- Witness for C2: a reply whose confidence field defeats `float()` makes
the modelled `try`-block raise, and both wrappers degrade as stated; the
malformed reply of the claim returns normally through the keyword tier. -/
theorem C2_never_raises_witness :
    normalize_category "\x7b\"category_number\": 5, \"confidence\": \"high\"\x7d" =
      (NewsCategory.others.value, 0) ∧
    normalize_sentiment "\x7b\"category_number\": 5, \"confidence\": \"high\"\x7d" =
      (SentimentType.neutral.value, 0) ∧
    normalize_category "\x7bcategory_number: \x7d" = (NewsCategory.others.value, mkRat 1 2) :=
  ⟨(C2_never_raises _).2.1
      (.valueError ("could not convert string to float: " ++ "high")) (by rfl),
   (C2_never_raises _).2.2.2
      (.valueError ("could not convert string to float: " ++ "high")) (by rfl),
   (C2_never_raises _).1 _ (by rfl)⟩

/-- Case analysis of the category `try`-block: every run either lands in the
keyword tier, raises, or returns an ordinal category paired with the parsed
JSON confidence. -/
theorem normalize_category_try_cases (s : String) :
    normalize_category_try s = .ok (categoryKeywordFallback (pyStrip (pyLower s))) ∨
    (∃ e, normalize_category_try s = .error e) ∨
    (∃ z : ℤ, normalize_category_try s = .ok (categoryAt z, jsonConfidence s)) := by
  cases hf : pyFloat ((dictGet (parse_json_response s) "confidence").getD (.int 0)) with
  | error e => exact .inr (.inl ⟨e, by simp [normalize_category_try, hf]⟩)
  | ok q =>
    have hj : jsonConfidence s = q := by simp [jsonConfidence, hf]
    cases hv : dictGet (parse_json_response s) "category_number" with
    | none => exact .inl (by simp [normalize_category_try, hf, hv])
    | some v =>
      by_cases ht : pyTruthy v = true
      · cases hc : pyChainedCmp v 9 with
        | error e =>
          exact .inr (.inl ⟨e, by simp [normalize_category_try, hf, hv, ht, hc]⟩)
        | ok b =>
          cases b with
          | false => exact .inl (by simp [normalize_category_try, hf, hv, ht, hc])
          | true =>
            cases hi : pyIndex v with
            | error e =>
              exact .inr (.inl ⟨e, by simp [normalize_category_try, hf, hv, ht, hc, hi]⟩)
            | ok z =>
              exact .inr (.inr ⟨z, by simp [normalize_category_try, hf, hv, ht, hc, hi, hj]⟩)
      · exact .inl (by simp [normalize_category_try, hf, hv, ht])

/-- Case analysis of the sentiment `try`-block: every run either lands in the
keyword tier, raises, or returns a direct label with the parsed JSON
confidence. -/
theorem normalize_sentiment_try_cases (s : String) :
    normalize_sentiment_try s = .ok (sentimentKeywordFallback (pyStrip (pyLower s))) ∨
    (∃ e, normalize_sentiment_try s = .error e) ∨
    (∃ st : SentimentType, normalize_sentiment_try s = .ok (st.value, jsonConfidence s)) := by
  cases hf : pyFloat ((dictGet (parse_json_response s) "confidence").getD (.int 0)) with
  | error e => exact .inr (.inl ⟨e, by simp [normalize_sentiment_try, hf]⟩)
  | ok q =>
    have hj : jsonConfidence s = q := by simp [jsonConfidence, hf]
    cases hv : dictGet (parse_json_response s) "sentiment_number" with
    | none => exact .inl (by simp [normalize_sentiment_try, hf, hv])
    | some v =>
      by_cases ht : pyTruthy v = true
      · by_cases h1 : pyEqInt v 1 = true
        · exact .inr (.inr ⟨.positive,
            by simp [normalize_sentiment_try, hf, hv, ht, h1, hj]⟩)
        · by_cases h2 : pyEqInt v 2 = true
          · exact .inr (.inr ⟨.negative,
              by simp [normalize_sentiment_try, hf, hv, ht, h1, h2, hj]⟩)
          · exact .inr (.inr ⟨.neutral,
              by simp [normalize_sentiment_try, hf, hv, ht, h1, h2, hj]⟩)
      · exact .inl (by simp [normalize_sentiment_try, hf, hv, ht])

/-- Claim C3, counterexample: with `confidence` present but not float-parsable
(`"high"`), `float()` raises before the category number is examined, and the
`except` wrapper degrades the whole normalization to `(others, 0.0)` — not to
the 5th category with confidence 0 as the claim asserts. -/
theorem C3_counterexample :
    normalize_category "\x7b\"category_number\": 5, \"confidence\": \"high\"\x7d" =
      (NewsCategory.others.value, 0) ∧
    NewsCategory.others.value ≠ NewsCategory.stock_market.value := by
  constructor
  · rfl
  · decide

/-- Claim C3 as amended: a brace-delimited JSON object with integer
`category_number` in 1..9 maps to the category at that 1-based ordinal with
the parsed confidence, the confidence defaulting to 0 when the field is
absent (`float(0)` succeeds); but when the confidence field is present and
unparsable as float the normalization degrades to `(others, 0.0)` through the
exception handler rather than keeping the ordinal category. -/
theorem C3_json_ordinal (s : String) (n : ℤ) (q : ℚ) (e : PyErr) :
    (dictGet (parse_json_response s) "category_number" = some (.int n) → 1 ≤ n → n ≤ 9 →
      pyFloat ((dictGet (parse_json_response s) "confidence").getD (.int 0)) = .ok q →
      normalize_category s = (categoryAt n, q)) ∧
    (pyFloat ((dictGet (parse_json_response s) "confidence").getD (.int 0)) = .error e →
      normalize_category s = (NewsCategory.others.value, 0)) := by
  constructor
  · intro hn h1 h9 hq
    have ht : pyTruthy (JsonValue.int n) = true := by
      simp only [pyTruthy, decide_eq_true_eq]
      omega
    have hc : pyChainedCmp (JsonValue.int n) 9 = .ok true := by
      simp only [pyChainedCmp, toNumQ, Except.ok.injEq, Bool.and_eq_true, decide_eq_true_eq]
      constructor
      · exact_mod_cast h1
      · exact_mod_cast h9
    simp [normalize_category, normalize_category_try, hn, hq, ht, hc, pyIndex]
  · intro he
    simp [normalize_category, normalize_category_try, he]

/-- Witness for C3: the claim reply with confidence 0.92 maps to the 5th
category, `stock_market`, with confidence 0.92. -/
theorem C3_json_ordinal_witness :
    normalize_category "\x7b\"category_number\": 5, \"confidence\": 0.92\x7d" =
      (categoryAt 5, mkRat 23 25) :=
  (C3_json_ordinal _ 5 (mkRat 23 25) (.valueError "")).1
    (by rfl) (by decide) (by decide) (by rfl)

/-- Claim C4, counterexample: for the empty reply no rule matches, and the
category normalizer returns confidence 0.5 — not the 0.0 the claim asserts. -/
theorem C4_counterexample :
    normalize_category "" = (NewsCategory.others.value, mkRat 1 2) ∧
    mkRat 1 2 ≠ (0 : ℚ) := by
  constructor
  · rfl
  · decide

/-- Claim C4 as amended: when the reply yields no JSON object and no keyword
of either table occurs in the lowercased stripped text, the terminal
fallbacks are `(others, 0.5)` for category — 0.0 arises only from the
exception path — and `(neutral, 0.6)` for sentiment. -/
theorem C4_terminal_fallback (s : String)
    (hjson : parse_json_response s = [])
    (hcat : category_mapping.find? (fun kv => strContainsSubstr (pyStrip (pyLower s)) kv.1) = none)
    (hpos : positiveWords.any (fun w => strContainsSubstr (pyStrip (pyLower s)) w) = false)
    (hneg : negativeWords.any (fun w => strContainsSubstr (pyStrip (pyLower s)) w) = false) :
    normalize_category s = (NewsCategory.others.value, mkRat 1 2) ∧
    normalize_sentiment s = (SentimentType.neutral.value, mkRat 3 5) := by
  constructor
  · simp [normalize_category, normalize_category_try, hjson, dictGet, pyFloat,
      categoryKeywordFallback, hcat]
  · simp [normalize_sentiment, normalize_sentiment_try, hjson, dictGet, pyFloat,
      sentimentKeywordFallback, hpos, hneg]

/-- Witness for C4: the empty reply matches no rule and hits both terminal
fallbacks. -/
theorem C4_terminal_fallback_witness :
    normalize_category "" = (NewsCategory.others.value, mkRat 1 2) ∧
    normalize_sentiment "" = (SentimentType.neutral.value, mkRat 3 5) :=
  C4_terminal_fallback "" (by rfl) (by rfl) (by rfl) (by rfl)

/-- Claim C5: against an always-failing service `_call_ollama` makes exactly
`MAX_RETRIES` attempts, sleeping `RETRY_DELAY * 2^attempt` after each failed
attempt except the last, and returns `none` rather than raising; against a
service failing twice then succeeding it makes exactly 3 attempts with delays
`RETRY_DELAY*1, RETRY_DELAY*2` and returns the successful response. -/
theorem C5_retry_policy :
    (∀ (α : Type) (service : ℕ → Option α), (∀ n, service n = none) →
      call_ollama service = (none, MAX_RETRIES, [RETRY_DELAY * 1, RETRY_DELAY * 2])) ∧
    (∀ (α : Type) (service : ℕ → Option α) (r : α),
      service 0 = none → service 1 = none → service 2 = some r →
      call_ollama service = (some r, 3, [RETRY_DELAY * 1, RETRY_DELAY * 2])) := by
  constructor
  · intro α service h
    norm_num [call_ollama, call_ollama_loop, MAX_RETRIES, h]
  · intro α service r h0 h1 h2
    norm_num [call_ollama, call_ollama_loop, MAX_RETRIES, h0, h1, h2]

/-- Witness for C5: an always-failing service and a fails-twice-then-succeeds
service, at concrete types. -/
theorem C5_retry_policy_witness :
    call_ollama (fun _ => (none : Option Unit)) =
      (none, MAX_RETRIES, [RETRY_DELAY * 1, RETRY_DELAY * 2]) ∧
    call_ollama (fun n => if n = 2 then some "answer" else none) =
      (some "answer", 3, [RETRY_DELAY * 1, RETRY_DELAY * 2]) :=
  ⟨C5_retry_policy.1 Unit _ (fun _ => rfl),
   C5_retry_policy.2 String _ "answer" (by rfl) (by rfl) (by rfl)⟩

/-- Claim C6: whenever the modelled body of `analyze_news` raises, the
orchestrator boundary catches it and returns a `NewsAnalysis` with
`success = false`, category `others`, sentiment `neutral`, confidence 0.0 and
the exception description as `raw_response`; no exception propagates. -/
theorem C6_error_boundary (text : String) (cr sr : Option JsonObject) (e : PyErr)
    (h : analyze_news_try text cr sr = .error e) :
    analyze_news text cr sr =
      { category := NewsCategory.others.value, sentiment := SentimentType.neutral.value,
        success := false, raw_response := some (pyErrStr e), confidence_score := 0 } := by
  simp [analyze_news, h]

/-- Witness for C6: a category response whose `response` field is an int
makes `.strip()` raise inside the body, and the boundary converts it. -/
theorem C6_error_boundary_witness :
    analyze_news "hello" (some [("response", JsonValue.int 1)])
        (some [("response", JsonValue.str "fine")]) =
      { category := NewsCategory.others.value, sentiment := SentimentType.neutral.value,
        success := false,
        raw_response := some (pyErrStr (.attributeError "int object has no attribute strip")),
        confidence_score := 0 } :=
  C6_error_boundary _ _ _ _ (by rfl)

/-- Claim C7, counterexample: the reply with `sentiment_number` 9 returns
neutral with the parsed confidence 0.9 — it does not fall through to the
keyword and terminal tiers, which would have produced confidence 0.6. -/
theorem C7_counterexample :
    normalize_sentiment "\x7b\"sentiment_number\": 9, \"confidence\": 0.9\x7d" =
      (SentimentType.neutral.value, mkRat 9 10) ∧
    mkRat 9 10 ≠ mkRat 3 5 := by
  constructor
  · rfl
  · decide

/-- Claim C7 as amended: any truthy JSON `sentiment_number` is mapped
directly — 1 to positive, 2 to negative, and every other value (including
numbers outside 1..3) to neutral — always with the parsed confidence; only a
falsy or absent `sentiment_number` reaches the keyword tiers. -/
theorem C7_sentiment_number_mapping (s : String) (v : JsonValue) (q : ℚ)
    (hv : dictGet (parse_json_response s) "sentiment_number" = some v)
    (ht : pyTruthy v = true)
    (hq : pyFloat ((dictGet (parse_json_response s) "confidence").getD (.int 0)) = .ok q) :
    normalize_sentiment s =
      ((if pyEqInt v 1 then SentimentType.positive
        else if pyEqInt v 2 then SentimentType.negative
        else SentimentType.neutral).value, q) := by
  simp only [normalize_sentiment, normalize_sentiment_try, hv, hq, ht]
  cases h1 : pyEqInt v 1 <;> cases h2 : pyEqInt v 2 <;> simp [h1, h2]

/-- Witness for C7: the out-of-range `sentiment_number` 9 takes the direct
neutral branch with confidence 0.9. -/
theorem C7_sentiment_number_mapping_witness :
    normalize_sentiment "\x7b\"sentiment_number\": 9, \"confidence\": 0.9\x7d" =
      ((if pyEqInt (.int 9) 1 then SentimentType.positive
        else if pyEqInt (.int 9) 2 then SentimentType.negative
        else SentimentType.neutral).value, mkRat 9 10) :=
  C7_sentiment_number_mapping _ (.int 9) (mkRat 9 10) (by rfl) (by rfl) (by rfl)

/-- Claim C8, counterexample: on the nested reply the extraction does find a
usable object — the inner one — and the nested `category_number` 3 IS mapped
to the 3rd category, `housing`, with the default confidence 0. -/
theorem C8_counterexample :
    normalize_category "\x7b\"result\": \x7b\"category_number\": 3\x7d\x7d" =
      (categoryAt 3, 0) ∧ categoryAt 3 = NewsCategory.housing.value := by
  constructor
  · rfl
  · rfl

/-- Claim C8 as amended: the regex skips an opening brace whose next brace is
another opening brace, so on nested JSON it matches the innermost brace pair;
that inner object parses successfully and its `category_number` 3 is mapped
to the 3rd category with confidence 0 — extraction does not fall through. -/
theorem C8_nested_inner_extraction :
    extractFlatBraces ("\x7b\"result\": \x7b\"category_number\": 3\x7d\x7d").toList =
      some ("\x7b\"category_number\": 3\x7d").toList ∧
    parse_json_response "\x7b\"result\": \x7b\"category_number\": 3\x7d\x7d" =
      [("category_number", JsonValue.int 3)] ∧
    normalize_category "\x7b\"result\": \x7b\"category_number\": 3\x7d\x7d" =
      (categoryAt 3, 0) := by
  refine ⟨by rfl, by rfl, by rfl⟩

/-- Claim C9, counterexample: a model-reported confidence of 7.5 is passed
through unclamped, so the returned confidence exceeds 1. -/
theorem C9_counterexample :
    normalize_category "\x7b\"category_number\": 5, \"confidence\": 7.5\x7d" =
      (NewsCategory.stock_market.value, mkRat 15 2) ∧
    ¬ (mkRat 15 2 ≤ (1 : ℚ)) := by
  constructor
  · rfl
  · decide

/-- Claim C9 as amended: every confidence either lies in [0,1] — all keyword,
terminal and exception tiers produce 0.8, 0.5, 0.6 or 0.0 — or is exactly
the JSON-parsed model confidence, which is passed through unclamped and may
lie outside [0,1]; the claim as stated fails only on that JSON pass-through. -/
theorem C9_confidence_range (s : String) :
    (0 ≤ (normalize_category s).2 ∧ (normalize_category s).2 ≤ 1 ∨
      (normalize_category s).2 = jsonConfidence s) ∧
    (0 ≤ (normalize_sentiment s).2 ∧ (normalize_sentiment s).2 ≤ 1 ∨
      (normalize_sentiment s).2 = jsonConfidence s) := by
  constructor
  · rcases normalize_category_try_cases s with h | ⟨e, h⟩ | ⟨z, h⟩
    · have hr : normalize_category s = categoryKeywordFallback (pyStrip (pyLower s)) := by
        simp [normalize_category, h]
      rw [hr]
      exact .inl (categoryKeywordFallback_conf_range _)
    · have hr : normalize_category s = (NewsCategory.others.value, 0) := by
        simp [normalize_category, h]
      rw [hr]
      norm_num
    · have hr : normalize_category s = (categoryAt z, jsonConfidence s) := by
        simp [normalize_category, h]
      rw [hr]
      exact .inr rfl
  · rcases normalize_sentiment_try_cases s with h | ⟨e, h⟩ | ⟨st, h⟩
    · have hr : normalize_sentiment s = sentimentKeywordFallback (pyStrip (pyLower s)) := by
        simp [normalize_sentiment, h]
      rw [hr]
      exact .inl (sentimentKeywordFallback_conf_range _)
    · have hr : normalize_sentiment s = (SentimentType.neutral.value, 0) := by
        simp [normalize_sentiment, h]
      rw [hr]
      norm_num
    · have hr : normalize_sentiment s = (st.value, jsonConfidence s) := by
        simp [normalize_sentiment, h]
      rw [hr]
      exact .inr rfl

/-- Claim C10: when both model calls return truthy responses and both
`response` fields strip to strings, `raw_response` is the synthesized
two-line summary with confidences formatted to two decimals — not the
verbatim model text; when either call returns no response, `raw_response` is
`none`. -/
theorem C10_raw_response (text : String) (cd sd : JsonObject) (craw sraw : String)
    (hne : ¬ (pyStrip text = ""))
    (hcd : cd ≠ []) (hsd : sd ≠ [])
    (hcr : pyStripVal ((dictGet cd "response").getD (.str "")) = .ok craw)
    (hsr : pyStripVal ((dictGet sd "response").getD (.str "")) = .ok sraw) :
    (analyze_news text (some cd) (some sd)).raw_response =
      some ("Category: " ++ craw ++ ", Confidence: " ++ fmt2 (normalize_category craw).2 ++
        "\n" ++ "Sentiment: " ++ sraw ++ ", Confidence: " ++ fmt2 (normalize_sentiment sraw).2) ∧
    (analyze_news text none (some sd)).raw_response = none ∧
    (analyze_news text (some cd) none).raw_response = none := by
  refine ⟨?_, ?_, ?_⟩
  · rcases hnc : normalize_category craw with ⟨cat, catq⟩
    rcases hns : normalize_sentiment sraw with ⟨st, stq⟩
    simp [analyze_news, analyze_news_try, hne, dictTruthy, hcd, hsd, hcr, hsr, hnc, hns]
  · simp [analyze_news, analyze_news_try, hne, dictTruthy]
  · simp [analyze_news, analyze_news_try, hne, dictTruthy]

/-- Witness for C10: two truthy responses whose `response` fields are the
bare string `1`; the summary shows the keyword-tier confidences 0.50 and
0.60, and dropping either response yields `raw_response = none`. -/
theorem C10_raw_response_witness :
    (analyze_news "Fed raises rates" (some [("response", JsonValue.str "1")])
        (some [("response", JsonValue.str "1")])).raw_response =
      some ("Category: " ++ "1" ++ ", Confidence: " ++ fmt2 (normalize_category "1").2 ++
        "\n" ++ "Sentiment: " ++ "1" ++ ", Confidence: " ++ fmt2 (normalize_sentiment "1").2) ∧
    (analyze_news "Fed raises rates" none
        (some [("response", JsonValue.str "1")])).raw_response = none ∧
    (analyze_news "Fed raises rates" (some [("response", JsonValue.str "1")])
        none).raw_response = none :=
  C10_raw_response "Fed raises rates" [("response", JsonValue.str "1")]
    [("response", JsonValue.str "1")] "1" "1"
    (by decide) (by decide) (by decide) (by rfl) (by rfl)

end NewsClassifier
